import Mathlib

/-!
Verification development for the write-behind cache coordinator
(`src/fastapi_mongo_base/cached.py`), the task lifecycle mixin
(`src/fastapi_mongo_base/tasks.py`) and the invocation wrappers
(`src/fastapi_mongo_base/_utils/basic.py`).

The Redis staging cache and the Mongo durable store are modelled as
association lists keyed by the entity `uid` rendered as a string, mirroring
the hash-field keys `str(self.uid)` in `cached.py`.
-/

namespace FMB

/-! ## Association-list primitives

`getk`/`setk`/`delk` model, respectively, a Redis `hget`/`get`, `hset`/`set`
(overwrite, no merge), and `hdel` on a single hash or keyspace. -/

def getk {α : Type} (m : List (String × α)) (k : String) : Option α :=
  match m with
  | [] => Option.none
  | (k2, v) :: r => if k2 = k then Option.some v else getk r k

def setk {α : Type} (m : List (String × α)) (k : String) (v : α) :
    List (String × α) :=
  match m with
  | [] => [(k, v)]
  | (k2, v2) :: r => if k2 = k then (k, v) :: r else (k2, v2) :: setk r k v

def delk {α : Type} (m : List (String × α)) (k : String) : List (String × α) :=
  match m with
  | [] => []
  | (k2, v2) :: r => if k2 = k then delk r k else (k2, v2) :: delk r k

theorem getk_setk_self {α : Type} (m : List (String × α)) (k : String) (v : α) :
    getk (setk m k v) k = Option.some v := by
  induction m with
  | nil => simp [setk, getk]
  | cons hd tl ih =>
    obtain ⟨k2, v2⟩ := hd
    by_cases h : k2 = k
    · simp [setk, getk, h]
    · simp [setk, getk, h, ih]

theorem getk_setk_ne {α : Type} (m : List (String × α)) (k k2 : String) (v : α)
    (h : k ≠ k2) : getk (setk m k v) k2 = getk m k2 := by
  induction m with
  | nil => simp [setk, getk, h]
  | cons hd tl ih =>
    obtain ⟨k3, v3⟩ := hd
    by_cases h3 : k3 = k
    · subst h3
      simp [setk, getk, h]
    · simp only [setk, if_neg h3]
      by_cases h4 : k3 = k2
      · simp [getk, h4]
      · simp [getk, h4, ih]

theorem getk_delk_self {α : Type} (m : List (String × α)) (k : String) :
    getk (delk m k) k = Option.none := by
  induction m with
  | nil => simp [delk, getk]
  | cons hd tl ih =>
    obtain ⟨k2, v2⟩ := hd
    by_cases h : k2 = k
    · simp [delk, h, ih]
    · simp [delk, getk, h, ih]

theorem getk_delk_ne {α : Type} (m : List (String × α)) (k k2 : String)
    (h : k ≠ k2) : getk (delk m k) k2 = getk m k2 := by
  induction m with
  | nil => simp [delk]
  | cons hd tl ih =>
    obtain ⟨k3, v3⟩ := hd
    by_cases h3 : k3 = k
    · have hne : k3 ≠ k2 := h3.symm ▸ h
      simp [delk, getk, h3, hne, h, ih]
    · by_cases h4 : k3 = k2
      · simp [delk, getk, h3, h4, Ne.symm h]
      · simp [delk, getk, h3, h4, ih]

/-! ## Task status enumeration (`tasks.py`, `TaskStatusEnum`) -/

/-- Model of `TaskStatusEnum` from `tasks.py`.  The source member `none` (string value
`"null"`) is rendered `null` here to avoid the clash with `Option.none`. -/
inductive TaskStatus
  | null
  | draft
  | init
  | processing
  | paused
  | completed
  | done
  | error
deriving DecidableEq, Repr

/-- Modelled from the spec: `cached.py` calls `TaskStatusEnum.Finishes()` but
no definition of `Finishes` appears anywhere under the repository sources
(only this caller does).  The spec fixes the terminal set as
`{completed, done, error}`. -/
def TaskStatus.Finishes : List TaskStatus :=
  [TaskStatus.completed, TaskStatus.done, TaskStatus.error]

/-- Model of `getattr(self, "task_status", None) in TaskStatusEnum.Finishes()`:
a missing attribute yields `None`, and `None` is not a member of the list. -/
def statusFinished (o : Option TaskStatus) : Bool :=
  match o with
  | Option.some st => decide (st ∈ TaskStatus.Finishes)
  | Option.none => false

/-! ## Entity and cache state (`cached.py`, `CachedMixin`) -/

/-- The slice of an entity that `CachedMixin` touches.  The fields `uid`,
`user_id`, `business_name`, `is_deleted` and `meta_data` come from
`BaseEntitySchema` in `schemas.py`, which is imported by the sources but not
present in the repository snapshot; they are modelled from the spec data model
(§3, §6).  `payload` stands for the remaining mutable field set; the full
JSON snapshot `model_dump_json()` is identified with the entity value itself
(serialization is injective and round-trips through `cls(**json.loads(...))`
during a flush). -/
structure Entity where
  uid : String
  task_status : Option TaskStatus
  user_id : Option String
  business_name : Option String
  is_deleted : Bool
  payload : String
deriving DecidableEq, Repr

/-- Redis fixed expiry from the `Settings` fallback in `cached.py`. -/
def Settings.redis_expire : Nat := 60

/-- Joint state of the staging cache and the durable store for one entity
type:
* `fastRead` models the keys `"{project}:{Cls}:{uid}"` (value paired with the
  expiry passed to `redis.set(..., ex=...)`),
* `updatesHash` models the staged-write hash `"{project}:{Cls}_updates_hash"`
  (field `str(uid)` → snapshot),
* `durable` models the Mongo collection keyed by the unique `uid` index. -/
structure CacheState where
  fastRead : List (String × (Entity × Nat))
  updatesHash : List (String × Entity)
  durable : List (String × Entity)
deriving DecidableEq, Repr

namespace CachedMixin

/-- Model of `CachedMixin.is_cached`: `redis.hexists(updates_hash, str(uid))`. -/
def is_cached (s : CacheState) (uid : String) : Bool :=
  (getk s.updatesHash uid).isSome

/-- Model of `CachedMixin.save`: unconditionally `redis.set` the full snapshot with
the fixed expiry; then, when `task_status` is terminal, `super().save()` into
the durable store followed by `redis.hdel` of the staged entry, and otherwise
`redis.hset` the full snapshot into the staged-write hash. -/
def save (e : Entity) (s : CacheState) : CacheState :=
  let s1 : CacheState :=
    { s with fastRead := setk s.fastRead e.uid (e, Settings.redis_expire) }
  if statusFinished e.task_status then
    { s1 with
      durable := setk s1.durable e.uid e
      updatesHash := delk s1.updatesHash e.uid }
  else
    { s1 with updatesHash := setk s1.updatesHash e.uid e }

/-- Model of `CachedMixin.flush_queue_to_db`: `hgetall` the staged-write hash, delete
the hash key, then build one `UpdateOne(filter_by_uid, set_all_fields,
upsert=True)` per entry and submit them in a single `bulk_write`.  The
returned number counts the upsert operations issued against the durable
store (zero when the hash was empty: the `bulk_write` is skipped). -/
def flush_queue_to_db (s : CacheState) : CacheState × Nat :=
  let items := s.updatesHash
  let s1 : CacheState := { s with updatesHash := [] }
  let s2 := items.foldl
    (fun acc kv => { acc with durable := setk acc.durable kv.1 kv.2 }) s1
  (s2, items.length)

theorem flush_foldl_updatesHash (l : List (String × Entity)) (s : CacheState) :
    (l.foldl (fun acc kv =>
      { acc with durable := setk acc.durable kv.1 kv.2 }) s).updatesHash
      = s.updatesHash := by
  induction l generalizing s with
  | nil => rfl
  | cons hd tl ih => simp [List.foldl, ih]

theorem flush_foldl_fastRead (l : List (String × Entity)) (s : CacheState) :
    (l.foldl (fun acc kv =>
      { acc with durable := setk acc.durable kv.1 kv.2 }) s).fastRead
      = s.fastRead := by
  induction l generalizing s with
  | nil => rfl
  | cons hd tl ih => simp [List.foldl, ih]

theorem flush_updatesHash (s : CacheState) :
    ((flush_queue_to_db s).1).updatesHash = [] := by
  simp [flush_queue_to_db, flush_foldl_updatesHash]

theorem flush_of_empty (s : CacheState) (h : s.updatesHash = []) :
    flush_queue_to_db s = (s, 0) := by
  obtain ⟨fr, uh, du⟩ := s
  simp only at h
  subst h
  rfl

end CachedMixin

/-! ## C1: behaviour of `CachedMixin.save` -/

/-- Claim C1. `save()` first writes the full snapshot to the fast-read cache
key with the configured fixed expiry, unconditionally.  Then, when
`task_status` lies in the terminal set `{completed, done, error}`, it writes
the entity to the durable store and removes the staged-write hash entry for
its `uid`; otherwise it upserts the full current snapshot into the
staged-write hash under its `uid` — a plain overwrite of whatever was staged
(last write wins, no merge, no version check) — and leaves the durable store
untouched. -/
theorem C1_save_stage_or_flush (e : Entity) (s : CacheState) :
    getk (CachedMixin.save e s).fastRead e.uid
        = Option.some (e, Settings.redis_expire)
    ∧ (statusFinished e.task_status = true →
        getk (CachedMixin.save e s).durable e.uid = Option.some e
        ∧ getk (CachedMixin.save e s).updatesHash e.uid = Option.none)
    ∧ (statusFinished e.task_status = false →
        getk (CachedMixin.save e s).updatesHash e.uid = Option.some e
        ∧ (CachedMixin.save e s).durable = s.durable) := by
  unfold CachedMixin.save
  by_cases h : statusFinished e.task_status
  · refine ⟨?_, fun _ => ⟨?_, ?_⟩, fun hc => absurd h (by simp [hc])⟩
    · simp [h, getk_setk_self]
    · simp [h, getk_setk_self]
    · simp [h, getk_delk_self]
  · refine ⟨?_, fun hc => absurd hc (by simp [h]), fun _ => ⟨?_, ?_⟩⟩
    · simp [h, getk_setk_self]
    · simp [h, getk_setk_self]
    · simp [h]

/-- Witness for C1 at concrete inputs: a terminal-status entity lands in the
durable store with its staged entry removed, a non-terminal entity is staged;
both write the fast-read key. -/
theorem C1_save_stage_or_flush_witness :
    (getk (CachedMixin.save
        ⟨"u1", Option.some TaskStatus.done, Option.none, Option.none,
          false, "p"⟩ ⟨[], [("u1", ⟨"u1", Option.some TaskStatus.init,
          Option.none, Option.none, false, "old"⟩)], []⟩).durable "u1"
      = Option.some ⟨"u1", Option.some TaskStatus.done, Option.none,
          Option.none, false, "p"⟩)
    ∧ (getk (CachedMixin.save
        ⟨"u2", Option.some TaskStatus.processing, Option.none, Option.none,
          false, "q"⟩ ⟨[], [], []⟩).updatesHash "u2"
      = Option.some ⟨"u2", Option.some TaskStatus.processing, Option.none,
          Option.none, false, "q"⟩) := by
  refine ⟨?_, ?_⟩
  · exact ((C1_save_stage_or_flush _ _).2.1 (by decide)).1
  · exact ((C1_save_stage_or_flush _ _).2.2 (by decide)).1

/-! ## C3: idempotence of `flush_queue_to_db` absent intervening writes -/

/-- Claim C3. One flush reads the staged-write hash, clears it, and issues one
upsert per entry; a second consecutive flush with no saves in between issues
zero durable-store writes and leaves the state unchanged. -/
theorem C3_flush_idempotent (s : CacheState) :
    (CachedMixin.flush_queue_to_db s).2 = s.updatesHash.length
    ∧ CachedMixin.flush_queue_to_db (CachedMixin.flush_queue_to_db s).1
        = ((CachedMixin.flush_queue_to_db s).1, 0) := by
  constructor
  · rfl
  · exact CachedMixin.flush_of_empty _ (CachedMixin.flush_updatesHash s)

/-! ## C2: staged-entry invariant over save/flush histories -/

/-- An operation of the write-behind coordinator: a `CachedMixin.save()` of
some entity snapshot, or a `CachedMixin.flush_queue_to_db()` drain. -/
inductive CacheOp
  | save (e : Entity)
  | flush
deriving DecidableEq, Repr

def applyOp (s : CacheState) : CacheOp → CacheState
  | CacheOp.save e => CachedMixin.save e s
  | CacheOp.flush => (CachedMixin.flush_queue_to_db s).1

def run (s : CacheState) : List CacheOp → CacheState
  | [] => s
  | op :: rest => run (applyOp s op) rest

/-- The empty initial state: nothing cached, nothing staged, nothing
durable. -/
def initState : CacheState := ⟨[], [], []⟩

/-- Spec-side predicate, following the spec words for the C2 invariant: the
entity `uid` "has been saved since its last flush or terminal-status
transition and has not yet reached a terminal status" — i.e. the last event
affecting `uid` in the history was a save with non-terminal status.  The
accumulator `b` carries whether that already held before the history. -/
def specPendingStaged (uid : String) (b : Bool) : List CacheOp → Bool
  | [] => b
  | CacheOp.save e :: rest =>
      specPendingStaged uid
        (if e.uid = uid then !(statusFinished e.task_status) else b) rest
  | CacheOp.flush :: rest => specPendingStaged uid false rest

theorem is_cached_save (e : Entity) (s : CacheState) (uid : String) :
    CachedMixin.is_cached (CachedMixin.save e s) uid
      = (if e.uid = uid then !(statusFinished e.task_status)
         else CachedMixin.is_cached s uid) := by
  unfold CachedMixin.is_cached CachedMixin.save
  by_cases hf : statusFinished e.task_status
  · by_cases hu : e.uid = uid
    · subst hu
      simp [hf, getk_delk_self]
    · simp [hf, hu, getk_delk_ne _ _ _ hu]
  · by_cases hu : e.uid = uid
    · subst hu
      simp [hf, getk_setk_self]
    · simp [hf, hu, getk_setk_ne _ _ _ _ hu]

theorem is_cached_flush (s : CacheState) (uid : String) :
    CachedMixin.is_cached ((CachedMixin.flush_queue_to_db s).1) uid = false := by
  unfold CachedMixin.is_cached
  rw [CachedMixin.flush_updatesHash]
  rfl

theorem is_cached_run (uid : String) (ops : List CacheOp) (s : CacheState) :
    CachedMixin.is_cached (run s ops) uid
      = specPendingStaged uid (CachedMixin.is_cached s uid) ops := by
  induction ops generalizing s with
  | nil => rfl
  | cons op rest ih =>
    cases op with
    | save e =>
      show CachedMixin.is_cached (run (CachedMixin.save e s) rest) uid = _
      rw [ih, is_cached_save]
      rfl
    | flush =>
      show CachedMixin.is_cached
        (run ((CachedMixin.flush_queue_to_db s).1) rest) uid = _
      rw [ih, is_cached_flush]
      rfl

/-- Claim C2. In every state reachable from the empty initial state by a
sequence of `save()` and `flush_queue_to_db()` calls, a staged-write hash
entry exists for a `uid` (equivalently, `is_cached()` returns true) iff the
entity was saved since its last flush or terminal-status save and that last
save carried a non-terminal status. -/
theorem C2_staged_iff_pending (uid : String) (ops : List CacheOp) :
    CachedMixin.is_cached (run initState ops) uid
      = specPendingStaged uid false ops := by
  have h := is_cached_run uid ops initState
  simpa [CachedMixin.is_cached, initState, getk] using h

/-! ## C10: `CachedMixin.get_item` identity checks on a cache hit -/

/-- Python exceptions that the modelled code can raise. -/
inductive PyErr
  | attributeError (msg : String)
  | notImplementedError (msg : String)
  | valueError (msg : String)
  | exc (msg : String)
deriving DecidableEq, Repr

/-- Model of `BaseEntity.get_item` from `models.py`: `get_query` filters on
`is_deleted`, on `user_id` only when a truthy `user_id` was passed (and the
class has the field), and on `business_name` unconditionally (the class is
modelled as having both fields, as `BusinessOwnedEntity` does); the result is
then narrowed to `uid`.  The `uid` index is unique, so the
"Multiple items found" branch is unreachable and the lookup returns at most
one document. -/
def BaseEntity.userFilter (it : Entity) (user_id : Option String) : Bool :=
  match user_id with
  | Option.some u => decide (it.user_id = Option.some u)
  | Option.none => true

def BaseEntity.get_item (s : CacheState) (uid : String)
    (user_id business_name : Option String) (is_deleted : Bool) :
    Option Entity :=
  match getk s.durable uid with
  | Option.none => Option.none
  | Option.some it =>
      if it.is_deleted = is_deleted
          ∧ BaseEntity.userFilter it user_id = true
          ∧ it.business_name = business_name
      then Option.some it
      else Option.none

namespace CachedMixin

/-- Model of `CachedMixin.get_item`: raise `ValueError` when `user_id is None` unless
`ignore_user_id=True`; read the fast-read cache key; on a hit, reject when a
truthy `user_id` was passed and differs from the one on the cached item,
then reject when the `business_name` of the cached item differs from the argument
(unconditional comparison); on a cache miss, fall through to
`BaseEntity.get_item` on the durable store. -/
def get_item (s : CacheState) (uid : String)
    (user_id business_name : Option String) (is_deleted : Bool)
    (ignore_user_id : Bool) : Except PyErr (Option Entity) :=
  if user_id = Option.none ∧ ignore_user_id ≠ true then
    Except.error (PyErr.valueError "user_id is required")
  else
    match getk s.fastRead uid with
    | Option.some (item, _) =>
        if user_id ≠ Option.none ∧ item.user_id ≠ user_id then
          Except.ok Option.none
        else if item.business_name ≠ business_name then
          Except.ok Option.none
        else
          Except.ok (Option.some item)
    | Option.none =>
        Except.ok (BaseEntity.get_item s uid user_id business_name is_deleted)

end CachedMixin

/-- Claim C10. On a fast-read cache hit, `get_item` compares the cached
`business_name` against the `business_name` argument unconditionally (equal
`None`s pass), while the `user_id` comparison is skipped when `user_id` is
`None` (allowed only with `ignore_user_id=True`; otherwise a `ValueError` is
raised).  Consequently an entity cached with a non-`None` `business_name` is
never returned — and the durable store is never consulted — by a cache-hit
lookup that omits `business_name`. -/
theorem C10_get_item_identity_checks (s : CacheState) (uid : String)
    (item : Entity) (exp : Nat) (u : String) :
    (getk s.fastRead uid = Option.some (item, exp) →
        item.business_name ≠ Option.none →
        CachedMixin.get_item s uid (Option.some u) Option.none false false
          = if item.user_id ≠ Option.some u then Except.ok Option.none
            else Except.ok Option.none)
    ∧ (getk s.fastRead uid = Option.some (item, exp) →
        item.business_name = Option.none →
        item.user_id = Option.some u →
        CachedMixin.get_item s uid (Option.some u) Option.none false false
          = Except.ok (Option.some item))
    ∧ (getk s.fastRead uid = Option.some (item, exp) →
        CachedMixin.get_item s uid Option.none item.business_name false true
          = Except.ok (Option.some item))
    ∧ CachedMixin.get_item s uid Option.none item.business_name false false
        = Except.error (PyErr.valueError "user_id is required") := by
  refine ⟨?_, ?_, ?_, ?_⟩
  · intro hhit hbn
    unfold CachedMixin.get_item
    rw [if_neg (by simp)]
    rw [hhit]
    by_cases hu : item.user_id = Option.some u
    · simp [hu, hbn]
    · simp [hu, hbn]
  · intro hhit hbn hu
    unfold CachedMixin.get_item
    rw [if_neg (by simp)]
    rw [hhit]
    simp [hu, hbn]
  · intro hhit
    unfold CachedMixin.get_item
    rw [if_neg (by simp)]
    rw [hhit]
    simp
  · unfold CachedMixin.get_item
    rw [if_pos (by simp)]

/-- Witness for C10 at concrete inputs: a cached entity with
`business_name = "biz"` is not returned when the lookup omits
`business_name`; the same entity is returned when the names match; the
`user_id` check is skipped under `ignore_user_id`; omitting `user_id`
without `ignore_user_id` raises `ValueError`. -/
theorem C10_get_item_identity_checks_witness :
    (CachedMixin.get_item
        ⟨[("u1", (⟨"u1", Option.none, Option.some "alice",
          Option.some "biz", false, "p"⟩, 60))], [], []⟩
        "u1" (Option.some "alice") Option.none false false
      = Except.ok Option.none)
    ∧ (CachedMixin.get_item
        ⟨[("u1", (⟨"u1", Option.none, Option.some "alice",
          Option.some "biz", false, "p"⟩, 60))], [], []⟩
        "u1" Option.none (Option.some "biz") false true
      = Except.ok (Option.some ⟨"u1", Option.none, Option.some "alice",
          Option.some "biz", false, "p"⟩))
    ∧ (CachedMixin.get_item
        ⟨[("u1", (⟨"u1", Option.none, Option.some "alice",
          Option.some "biz", false, "p"⟩, 60))], [], []⟩
        "u1" Option.none (Option.some "biz") false false
      = Except.error (PyErr.valueError "user_id is required")) := by
  have h := C10_get_item_identity_checks
    ⟨[("u1", (⟨"u1", Option.none, Option.some "alice",
      Option.some "biz", false, "p"⟩, 60))], [], []⟩
    "u1" ⟨"u1", Option.none, Option.some "alice",
      Option.some "biz", false, "p"⟩ 60 "alice"
  refine ⟨?_, ?_, ?_⟩
  · have h1 := h.1 (by decide) (by decide)
    simpa using h1
  · have h3 := h.2.2.1 (by decide)
    simpa using h3
  · exact h.2.2.2

/-! ## Task lifecycle (`tasks.py`, `TaskMixin`)

Effectful outcomes (the durable/cache save inside `save_and_emit`, the
webhook HTTP request, the registered listener callbacks) are supplied by an
`Env` oracle: `Option.none` means the awaited operation returned normally,
`Option.some e` means it raised `e`. -/

/-- Model of `TaskLogRecord`, restricted to the fields the claims mention; the
`reported_at` timestamp, `duration` and structured `data` carry defaults in
the source and are not inspected by any modelled operation. -/
structure TaskLogRecord where
  message : String
  task_status : TaskStatus
deriving DecidableEq, Repr

/-- The `TaskMixin` field set plus `meta_data` (from `BaseEntitySchema`,
absent from the repository snapshot; modelled from the spec §4.3 as the dict
that may carry a `webhook`/`webhook_url` key). -/
structure Task where
  task_status : TaskStatus
  task_report : Option String
  task_progress : Int
  task_logs : List TaskLogRecord
  meta_data : Option (List (String × String))
deriving DecidableEq, Repr

/-- Model of `self.task_logs.append(log_record)` — the pure part of `add_log`. -/
def Task.append_log (t : Task) (rec : TaskLogRecord) : Task :=
  { t with task_logs := t.task_logs ++ [rec] }

/-- Python truthiness of an optional string: `None` and `""` are falsy. -/
def truthyStr : Option String → Option String
  | Option.some s => if s = "" then Option.none else Option.some s
  | Option.none => Option.none

/-- Model of `if task_instance.meta_data:` followed by
`meta_data.get("webhook") or meta_data.get("webhook_url")` and
`if webhook:`: the webhook is dispatched iff `meta_data` is a non-empty dict
and one of the two keys holds a truthy value (`webhook` taking priority). -/
def webhookUrl (t : Task) : Option String :=
  match t.meta_data with
  | Option.none => Option.none
  | Option.some md =>
      if md = [] then Option.none
      else
        match truthyStr (getk md "webhook") with
        | Option.some w => Option.some w
        | Option.none => truthyStr (getk md "webhook_url")

/-- Outcomes of the awaited collaborators, per `emit_signals`/`save_and_emit`
call: the `self.save()` gathered inside `save_and_emit`, the
`task_instance.save()` issued inside the except-branch of `webhook_call`, the
`aio_request` webhook delivery, and the registered listeners in registration
order. -/
structure Env where
  saveOutcome : Option PyErr
  recoverySaveOutcome : Option PyErr
  webhookOutcome : Option PyErr
  listenerOutcomes : List (Option PyErr)
deriving DecidableEq, Repr

/-- The exception `asyncio.gather` propagates: the first raising member of
the list (all members still run to completion — gather does not cancel the
rest by default). -/
def firstErr : List (Option PyErr) → Option PyErr
  | [] => Option.none
  | Option.some e :: _ => Option.some e
  | Option.none :: rest => firstErr rest

def PyErr.text : PyErr → String
  | PyErr.attributeError m => m
  | PyErr.notImplementedError m => m
  | PyErr.valueError m => m
  | PyErr.exc m => m

structure EmitResult where
  task : Task
  webhookDispatched : Bool
  reportSaved : Bool
  recoverySaves : Nat
  combinedOps : Nat
  listenersStarted : Nat
  raised : Option PyErr
  errorLogs : Nat
deriving DecidableEq, Repr

/-- Model of `TaskMixin.emit_signals`: builds the notification set (an inner
`webhook_call` if a webhook URL is configured, plus one invocation per
registered listener) and awaits them with `asyncio.gather`.  Inside
`webhook_call` a failed delivery is caught:
`save_report("An error occurred in webhook_call: ...", emit=False)` sets
`task_report` and appends one log record without triggering `save_and_emit`
(that inlines `save_report`/`add_log` with `emit=False`), then
`task_instance.save()` runs and `logging.error` fires; only if that recovery
save itself raises does anything escape `webhook_call`.  Listener failures
are not caught anywhere in `emit_signals`, so `gather` re-raises the first
one. -/
def emit_signals (env : Env) (t : Task) : EmitResult :=
  match webhookUrl t with
  | Option.none =>
      { task := t, webhookDispatched := false, reportSaved := false,
        recoverySaves := 0, combinedOps := 0,
        listenersStarted := env.listenerOutcomes.length,
        raised := firstErr env.listenerOutcomes, errorLogs := 0 }
  | Option.some _ =>
      match env.webhookOutcome with
      | Option.none =>
          { task := t, webhookDispatched := true, reportSaved := false,
            recoverySaves := 0, combinedOps := 0,
            listenersStarted := env.listenerOutcomes.length,
            raised := firstErr env.listenerOutcomes, errorLogs := 0 }
      | Option.some e =>
          let msg := "An error occurred in webhook_call: " ++ e.text
          let t1 := Task.append_log { t with task_report := Option.some msg }
            ⟨msg, t.task_status⟩
          match env.recoverySaveOutcome with
          | Option.none =>
              { task := t1, webhookDispatched := true, reportSaved := true,
                recoverySaves := 1, combinedOps := 0,
                listenersStarted := env.listenerOutcomes.length,
                raised := firstErr env.listenerOutcomes, errorLogs := 1 }
          | Option.some e2 =>
              { task := t1, webhookDispatched := true, reportSaved := true,
                recoverySaves := 1, combinedOps := 0,
                listenersStarted := env.listenerOutcomes.length,
                raised := Option.some e2, errorLogs := 0 }

/-- Result of one externally visible `TaskMixin` operation.  `taskAtEmit` is
the entity state at the instant the final `save_and_emit` (if any) started;
`combinedOps` counts `save_and_emit` executions; `raised` is what the caller
observes. -/
structure OpResult where
  task : Task
  taskAtEmit : Task
  combinedOps : Nat
  raised : Option PyErr
  errorLogs : Nat
deriving DecidableEq, Repr

/-- Model of `TaskMixin.save_and_emit`: `asyncio.gather(self.save(),
self.emit_signals(self))` inside `try/except Exception`, logging and
discarding any failure. -/
def save_and_emit (env : Env) (t : Task) : OpResult :=
  let er := emit_signals env t
  let innerRaised : Option PyErr :=
    match env.saveOutcome with
    | Option.some e => Option.some e
    | Option.none => er.raised
  { task := er.task, taskAtEmit := t, combinedOps := 1 + er.combinedOps,
    raised := Option.none,
    errorLogs := er.errorLogs + (if innerRaised.isSome then 1 else 0) }

/-- Model of `TaskMixin.add_log`: append the record, then `save_and_emit` unless
`emit=False` was passed. -/
def add_log (env : Env) (t : Task) (rec : TaskLogRecord) (emit : Bool) :
    OpResult :=
  let t1 := t.append_log rec
  if emit then save_and_emit env t1
  else { task := t1, taskAtEmit := t1, combinedOps := 0,
         raised := Option.none, errorLogs := 0 }

/-- Enum value strings of `TaskStatusEnum` (used in the transition log
message; no claim inspects the exact rendering). -/
def statusValue : TaskStatus → String
  | TaskStatus.null => "null"
  | TaskStatus.draft => "draft"
  | TaskStatus.init => "init"
  | TaskStatus.processing => "processing"
  | TaskStatus.paused => "paused"
  | TaskStatus.completed => "completed"
  | TaskStatus.done => "done"
  | TaskStatus.error => "error"

/-- Model of `TaskMixin.save_status`: set the status, then `add_log` a transition
record, forwarding `**kwargs` (hence the `emit` flag) to `add_log`. -/
def save_status (env : Env) (t : Task) (status : TaskStatus) (emit : Bool) :
    OpResult :=
  let t1 := { t with task_status := status }
  add_log env t1
    ⟨"Status changed to " ++ statusValue status, t1.task_status⟩ emit

/-- Model of `TaskMixin.save_report`: set `task_report`, then `add_log` the report
text at the current status. -/
def save_report (env : Env) (t : Task) (report : String) (emit : Bool) :
    OpResult :=
  let t1 := { t with task_report := Option.some report }
  add_log env t1 ⟨report, t1.task_status⟩ emit

/-- The keyword arguments of `update_and_emit` that the claims inspect.
`Option.none` means the key is absent; `task_report := Option.some
Option.none` means the key was supplied with value `None`. -/
structure UpdateKwargs where
  task_status : Option TaskStatus := Option.none
  task_progress : Option Int := Option.none
  task_report : Option (Option String) := Option.none
deriving DecidableEq, Repr

/-- Model of `TaskMixin.update_and_emit`: when the supplied `task_status` is terminal
(`done`, `error`, `completed`), `kwargs["task_progress"] =
kwargs.get("task_progress", 100)` — i.e. 100 unless explicitly supplied;
then every supplied key is applied with `setattr`; then, when
`kwargs.get("task_report")` is truthy, one log record is appended with
`emit=False`; finally a single `save_and_emit`.  `updApply` is the mutation
phase (everything before the final `save_and_emit`). -/
def updApply (t : Task) (kw : UpdateKwargs) : Task :=
  let kw2 :=
    if kw.task_status ∈ [Option.some TaskStatus.done,
        Option.some TaskStatus.error, Option.some TaskStatus.completed] then
      { kw with task_progress := Option.some (kw.task_progress.getD 100) }
    else kw
  let t1 : Task := { t with
    task_status := kw2.task_status.getD t.task_status
    task_progress := kw2.task_progress.getD t.task_progress
    task_report := kw2.task_report.getD t.task_report }
  match kw2.task_report with
  | Option.some (Option.some r) =>
      if r = "" then t1 else t1.append_log ⟨r, t1.task_status⟩
  | _ => t1

def update_and_emit (env : Env) (t : Task) (kw : UpdateKwargs) : OpResult :=
  save_and_emit env (updApply t kw)

/-! ## Sub-task execution tree (`tasks.py`, `TaskReferenceList`,
`TaskMixin.start_processing`) -/

structure TaskReference where
  task_id : String
  task_type : String
deriving DecidableEq, Repr

inductive RefMode
  | serial
  | parallel
deriving DecidableEq, Repr

structure TaskReferenceList where
  tasks : List TaskReference := []
  mode : RefMode := RefMode.serial
deriving DecidableEq, Repr

/-- In `list_processing`, `task_items = [task.get_task_item() for task in
self.tasks]` calls the async method `get_task_item` **without awaiting it**,
so each element is a coroutine object, not a task entity. -/
inductive Coroutine
  | get_task_item (r : TaskReference)
deriving DecidableEq, Repr

/-- Attribute lookup `task_item.start_processing` on a coroutine object:
coroutine objects expose no such attribute, so Python raises
`AttributeError` synchronously, before anything is awaited or any sub-task
is invoked. -/
def coroStartProcessingAttr (_c : Coroutine) : Except PyErr Unit :=
  Except.error (PyErr.attributeError
    "coroutine object has no attribute start_processing")

instance {ε α : Type} [DecidableEq ε] [DecidableEq α] :
    DecidableEq (Except ε α) := fun a b =>
  match a, b with
  | Except.ok x, Except.ok y =>
      if h : x = y then isTrue (by rw [h]) else
        isFalse (by intro hc; cases hc; exact h rfl)
  | Except.ok _, Except.error _ => isFalse (by intro hc; cases hc)
  | Except.error _, Except.ok _ => isFalse (by intro hc; cases hc)
  | Except.error x, Except.error y =>
      if h : x = y then isTrue (by rw [h]) else
        isFalse (by intro hc; cases hc; exact h rfl)

structure ProcResult where
  invoked : List TaskReference
  result : Except PyErr Unit
deriving DecidableEq, Repr

/-- The `serial` branch: `for task_item in task_items: await
task_item.start_processing()`.  The attribute lookup on the first coroutine
raises, aborting the loop before any sub-task runs (the `ok` branch is
unreachable and would record the invocation). -/
def serialLoop : List Coroutine → ProcResult
  | [] => ⟨[], Except.ok ()⟩
  | c :: rest =>
      match coroStartProcessingAttr c with
      | Except.error e => ⟨[], Except.error e⟩
      | Except.ok _ =>
          let r := serialLoop rest
          ⟨(match c with | Coroutine.get_task_item ref => ref) :: r.invoked,
            r.result⟩

/-- The `parallel` branch builds `[task.start_processing() for task in
task_items]` before `gather`; the comprehension evaluates the attribute per
element and the first `AttributeError` aborts it. -/
def parallelComprehension : List Coroutine → Except PyErr Unit
  | [] => Except.ok ()
  | c :: rest =>
      match coroStartProcessingAttr c with
      | Except.error e => Except.error e
      | Except.ok _ => parallelComprehension rest

/-- Model of `TaskReferenceList.list_processing`. -/
def list_processing (rl : TaskReferenceList) : ProcResult :=
  let task_items := rl.tasks.map Coroutine.get_task_item
  match rl.mode with
  | RefMode.serial => serialLoop task_items
  | RefMode.parallel =>
      match parallelComprehension task_items with
      | Except.error e => ⟨[], Except.error e⟩
      | Except.ok _ => ⟨[], Except.ok ()⟩

/-- Model of `TaskMixin.start_processing`: `NotImplementedError` when
`task_references is None`, else `task_references.list_processing()`. -/
def start_processing (refs : Option TaskReferenceList) : ProcResult :=
  match refs with
  | Option.none =>
      ⟨[], Except.error (PyErr.notImplementedError
        "Subclasses should implement this method")⟩
  | Option.some rl => list_processing rl

/-! ## Support lemmas about `emit_signals` and `save_and_emit` -/

theorem emit_signals_combinedOps (env : Env) (t : Task) :
    (emit_signals env t).combinedOps = 0 := by
  unfold emit_signals
  cases hw : webhookUrl t with
  | none => rfl
  | some u =>
    cases hwo : env.webhookOutcome with
    | none => rfl
    | some e =>
      cases hro : env.recoverySaveOutcome with
      | none => rfl
      | some e2 => rfl

theorem emit_signals_listenersStarted (env : Env) (t : Task) :
    (emit_signals env t).listenersStarted = env.listenerOutcomes.length := by
  unfold emit_signals
  cases hw : webhookUrl t with
  | none => rfl
  | some u =>
    cases hwo : env.webhookOutcome with
    | none => rfl
    | some e =>
      cases hro : env.recoverySaveOutcome with
      | none => rfl
      | some e2 => rfl

theorem save_and_emit_spec (env : Env) (t : Task) :
    (save_and_emit env t).combinedOps = 1
    ∧ (save_and_emit env t).raised = Option.none
    ∧ (save_and_emit env t).taskAtEmit = t
    ∧ (env.saveOutcome.isSome = true → 1 ≤ (save_and_emit env t).errorLogs)
    ∧ (env.saveOutcome = Option.none →
        (emit_signals env t).raised.isSome = true →
        1 ≤ (save_and_emit env t).errorLogs) := by
  refine ⟨?_, rfl, rfl, ?_, ?_⟩
  · show 1 + (emit_signals env t).combinedOps = 1
    rw [emit_signals_combinedOps]
  · intro h
    show 1 ≤ (emit_signals env t).errorLogs + _
    cases hs : env.saveOutcome with
    | none => rw [hs] at h; cases h
    | some e => simp [hs]
  · intro hs hr
    show 1 ≤ (emit_signals env t).errorLogs + _
    simp [hs, hr]

theorem add_log_emit_true (env : Env) (t : Task) (rec : TaskLogRecord) :
    add_log env t rec true = save_and_emit env (t.append_log rec) := rfl

theorem save_status_emit_true (env : Env) (t : Task) (status : TaskStatus) :
    save_status env t status true
      = save_and_emit env (Task.append_log { t with task_status := status }
          ⟨"Status changed to " ++ statusValue status, status⟩) := rfl

theorem emit_signals_raised_of_listener (env : Env) (t : Task)
    (h : (firstErr env.listenerOutcomes).isSome = true) :
    (emit_signals env t).raised.isSome = true := by
  unfold emit_signals
  cases hw : webhookUrl t with
  | none => simpa using h
  | some u =>
    cases hwo : env.webhookOutcome with
    | none => simpa using h
    | some e =>
      cases hro : env.recoverySaveOutcome with
      | none => simpa using h
      | some e2 => rfl

/-! ## C4: `start_processing` and the unawaited `get_task_item()` -/

/-- The spec scenario: three referenced sub-tasks. -/
def threeSubtasks : List TaskReference :=
  [⟨"t1", "T"⟩, ⟨"t2", "T"⟩, ⟨"t3", "T"⟩]

/-- Claim C4, divergence witness. `start_processing()` does raise the
contract-violation `NotImplementedError` when `task_references is None`.
But for a populated reference list — here the three-sub-task spec
scenario, in either mode — `list_processing` builds `task_items` from
unawaited `get_task_item()` coroutine objects, so the attribute lookup
`task_item.start_processing` raises `AttributeError` and **zero** sub-tasks
are ever invoked, in serial mode as in parallel mode; no sub-task ordering
or aggregate-failure behaviour is reachable. -/
theorem C4_start_processing_missing_await :
    (start_processing Option.none).result
        = Except.error (PyErr.notImplementedError
            "Subclasses should implement this method")
    ∧ (start_processing (Option.some ⟨threeSubtasks, RefMode.serial⟩)).result
        = Except.error (PyErr.attributeError
            "coroutine object has no attribute start_processing")
    ∧ (start_processing (Option.some ⟨threeSubtasks, RefMode.serial⟩)).invoked
        = []
    ∧ (start_processing
          (Option.some ⟨threeSubtasks, RefMode.parallel⟩)).result
        = Except.error (PyErr.attributeError
            "coroutine object has no attribute start_processing")
    ∧ (start_processing
          (Option.some ⟨threeSubtasks, RefMode.parallel⟩)).invoked = [] :=
  ⟨rfl, rfl, rfl, rfl, rfl⟩

/-! ## C5: the persist-and-notify boundary of `save_status` /
`update_and_emit` -/

def env0 : Env := ⟨Option.none, Option.none, Option.none, []⟩

def task0 : Task := ⟨TaskStatus.draft, Option.none, -1, [], Option.none⟩

/-- Claim C5, counterexample. A `save_status` call that forwards
`emit=False` performs **zero** combined persist-and-notify operations, so
not every call to `save_status` ends in one combined operation. -/
theorem C5_suppressed_counterexample :
    (save_status env0 task0 TaskStatus.done false).combinedOps = 0
    ∧ (save_status env0 task0 TaskStatus.done false).combinedOps ≠ 1 := by
  exact ⟨rfl, by decide⟩

/-- Claim C5, amended. Unless suppressed by an explicit `emit=False`
keyword, every call to `save_status` — and every call to `update_and_emit`,
unconditionally — ends in exactly one combined operation that persists the
entity and dispatches notifications concurrently; any failure of either
sub-operation is logged and swallowed at that boundary, so the caller never
observes a persistence or notification failure as an exception. -/
theorem C5_persist_notify_swallowed (env : Env) (t : Task)
    (status : TaskStatus) (kw : UpdateKwargs) :
    (save_status env t status true).combinedOps = 1
    ∧ (save_status env t status true).raised = Option.none
    ∧ (update_and_emit env t kw).combinedOps = 1
    ∧ (update_and_emit env t kw).raised = Option.none
    ∧ (env.saveOutcome.isSome = true →
        1 ≤ (save_status env t status true).errorLogs
        ∧ 1 ≤ (update_and_emit env t kw).errorLogs)
    ∧ (env.saveOutcome = Option.none →
        (firstErr env.listenerOutcomes).isSome = true →
        1 ≤ (save_status env t status true).errorLogs
        ∧ 1 ≤ (update_and_emit env t kw).errorLogs) := by
  rw [save_status_emit_true, update_and_emit]
  refine ⟨(save_and_emit_spec env _).1, (save_and_emit_spec env _).2.1,
    (save_and_emit_spec env _).1, (save_and_emit_spec env _).2.1, ?_, ?_⟩
  · intro h
    exact ⟨(save_and_emit_spec env _).2.2.2.1 h,
      (save_and_emit_spec env _).2.2.2.1 h⟩
  · intro hs hl
    exact ⟨(save_and_emit_spec env _).2.2.2.2 hs
        (emit_signals_raised_of_listener env _ hl),
      (save_and_emit_spec env _).2.2.2.2 hs
        (emit_signals_raised_of_listener env _ hl)⟩

/-- Witness for C5 at concrete inputs: with a failing durable save, both
operations perform one combined op, raise nothing, and log the swallowed
persistence failure; with a healthy save but a failing listener, the
swallowed notification failure is logged too. -/
theorem C5_persist_notify_swallowed_witness :
    (save_status ⟨Option.some (PyErr.exc "db down"), Option.none,
        Option.none, []⟩ task0 TaskStatus.done true).combinedOps = 1
    ∧ (save_status ⟨Option.some (PyErr.exc "db down"), Option.none,
        Option.none, []⟩ task0 TaskStatus.done true).raised = Option.none
    ∧ 1 ≤ (update_and_emit ⟨Option.some (PyErr.exc "db down"), Option.none,
        Option.none, []⟩ task0 {}).errorLogs
    ∧ 1 ≤ (save_status ⟨Option.none, Option.none, Option.none,
        [Option.some (PyErr.exc "listener boom")]⟩ task0
          TaskStatus.done true).errorLogs
    ∧ (save_status ⟨Option.none, Option.none, Option.none,
        [Option.some (PyErr.exc "listener boom")]⟩ task0
          TaskStatus.done true).raised = Option.none := by
  have h := C5_persist_notify_swallowed
    ⟨Option.some (PyErr.exc "db down"), Option.none, Option.none, []⟩
    task0 TaskStatus.done {}
  have h2 := C5_persist_notify_swallowed
    ⟨Option.none, Option.none, Option.none,
      [Option.some (PyErr.exc "listener boom")]⟩
    task0 TaskStatus.done {}
  exact ⟨h.1, h.2.1, (h.2.2.2.2.1 (by decide)).2,
    (h2.2.2.2.2.2 rfl (by decide)).1, h2.2.1⟩

/-! ## C6: failure isolation inside `emit_signals` -/

/-- Claim C6. Inside `emit_signals`, a failing webhook delivery is caught:
the failure is recorded as a report log entry with notification suppressed
for that sub-step (`save_report(..., emit=False)`: no nested
`save_and_emit`), and the other dispatched notifications still all start;
when the recovery save returns normally, the webhook branch contributes no
exception, so what escapes `emit_signals` is exactly the first listener
failure.  A failure raised by a registered listener has no per-listener
isolation: it propagates out of `emit_signals` unchanged, to be caught only
by the outer combined persist-and-notify wrapper `save_and_emit`, which
never re-raises. -/
theorem C6_webhook_isolated_listeners_propagate (env : Env) (t : Task)
    (e : PyErr) :
    ((webhookUrl t).isSome = true → env.webhookOutcome = Option.some e →
      (emit_signals env t).task.task_logs
          = t.task_logs
            ++ [⟨"An error occurred in webhook_call: " ++ e.text,
                t.task_status⟩]
      ∧ (emit_signals env t).task.task_report
          = Option.some ("An error occurred in webhook_call: " ++ e.text)
      ∧ (emit_signals env t).reportSaved = true
      ∧ (emit_signals env t).combinedOps = 0
      ∧ (emit_signals env t).listenersStarted = env.listenerOutcomes.length
      ∧ (env.recoverySaveOutcome = Option.none →
          (emit_signals env t).raised = firstErr env.listenerOutcomes))
    ∧ (env.webhookOutcome = Option.none →
        (emit_signals env t).raised = firstErr env.listenerOutcomes
        ∧ (emit_signals env t).task = t)
    ∧ (save_and_emit env t).raised = Option.none := by
  refine ⟨?_, ?_, (save_and_emit_spec env t).2.1⟩
  · intro hw hwo
    cases hwu : webhookUrl t with
    | none => rw [hwu] at hw; cases hw
    | some u =>
      refine ⟨?_, ?_, ?_, ?_, ?_, ?_⟩ <;>
        cases hro : env.recoverySaveOutcome <;>
          simp [emit_signals, hwu, hwo, hro, Task.append_log]
  · intro hwo
    cases hwu : webhookUrl t with
    | none => simp [emit_signals, hwu]
    | some u => simp [emit_signals, hwu, hwo]

def taskW : Task :=
  ⟨TaskStatus.done, Option.none, 100, [],
    Option.some [("webhook", "http://example.test/hook")]⟩

def envWfail : Env :=
  ⟨Option.none, Option.none, Option.some (PyErr.exc "http 500"),
    [Option.some (PyErr.exc "listener boom")]⟩

def envWok : Env :=
  ⟨Option.none, Option.none, Option.none,
    [Option.some (PyErr.exc "listener boom")]⟩

/-- Witness for C6 at concrete inputs: a failing webhook is recorded and
suppressed while the failing listener still starts and its error is what
escapes; with a healthy webhook, the listener error escapes unchanged; the
outer wrapper swallows it. -/
theorem C6_webhook_isolated_listeners_propagate_witness :
    (emit_signals envWfail taskW).task.task_logs
        = [⟨"An error occurred in webhook_call: http 500",
            TaskStatus.done⟩]
    ∧ (emit_signals envWfail taskW).combinedOps = 0
    ∧ (emit_signals envWfail taskW).listenersStarted = 1
    ∧ (emit_signals envWfail taskW).raised
        = Option.some (PyErr.exc "listener boom")
    ∧ (emit_signals envWok taskW).raised
        = Option.some (PyErr.exc "listener boom")
    ∧ (save_and_emit envWfail taskW).raised = Option.none := by
  have h1 := C6_webhook_isolated_listeners_propagate envWfail taskW
    (PyErr.exc "http 500")
  have h2 := C6_webhook_isolated_listeners_propagate envWok taskW
    (PyErr.exc "http 500")
  have ha := h1.1 (by decide) rfl
  refine ⟨?_, ha.2.2.2.1, ha.2.2.2.2.1, ?_, ?_, h1.2.2⟩
  · simpa [taskW] using ha.1
  · simpa using ha.2.2.2.2.2 rfl
  · exact (h2.2.1 rfl).1

/-! ## C7: field application in `update_and_emit` -/

/-- Claim C7, counterexample. Supplying the (empty) string `""` as
`task_report` applies the field but appends **no** log entry: the source
guards the log append with Python truthiness, not presence. -/
theorem C7_empty_report_counterexample :
    (⟨Option.none, Option.none,
        Option.some (Option.some "")⟩ : UpdateKwargs).task_report
      = Option.some (Option.some "")
    ∧ (update_and_emit env0 task0
        ⟨Option.none, Option.none,
          Option.some (Option.some "")⟩).task.task_logs = []
    ∧ (update_and_emit env0 task0
        ⟨Option.none, Option.none,
          Option.some (Option.some "")⟩).task.task_report
      = Option.some "" := by
  exact ⟨rfl, rfl, rfl⟩

/-- Claim C7, amended. `update_and_emit` applies every supplied field; when
the supplied `task_status` is terminal (`done`, `error`, `completed`),
`task_progress` becomes 100 unless a `task_progress` value was explicitly
supplied in the same call; when a **non-empty** (truthy) `task_report`
string is supplied, exactly one log entry is appended for it without its own
notification; and exactly one combined persist-and-notify operation fires at
the end of the call, which never raises to the caller. -/
theorem C7_update_and_emit_fields (env : Env) (t : Task) (kw : UpdateKwargs) :
    (update_and_emit env t kw).taskAtEmit.task_status
        = kw.task_status.getD t.task_status
    ∧ (∀ p, kw.task_progress = Option.some p →
        (update_and_emit env t kw).taskAtEmit.task_progress = p)
    ∧ (∀ rep, kw.task_report = Option.some rep →
        (update_and_emit env t kw).taskAtEmit.task_report = rep)
    ∧ (kw.task_status ∈ [Option.some TaskStatus.done,
          Option.some TaskStatus.error, Option.some TaskStatus.completed] →
        kw.task_progress = Option.none →
        (update_and_emit env t kw).taskAtEmit.task_progress = 100)
    ∧ (∀ rep, kw.task_report = Option.some (Option.some rep) → rep ≠ "" →
        (update_and_emit env t kw).taskAtEmit.task_logs
          = t.task_logs ++ [⟨rep, kw.task_status.getD t.task_status⟩])
    ∧ (update_and_emit env t kw).combinedOps = 1
    ∧ (update_and_emit env t kw).raised = Option.none := by
  have hAt : (update_and_emit env t kw).taskAtEmit = updApply t kw := by
    rw [update_and_emit]
    exact (save_and_emit_spec env _).2.2.1
  rw [update_and_emit]
  rw [update_and_emit] at hAt
  refine ⟨?_, ?_, ?_, ?_, ?_, (save_and_emit_spec env _).1,
    (save_and_emit_spec env _).2.1⟩
  · rw [hAt]
    by_cases hm : kw.task_status ∈ [Option.some TaskStatus.done,
        Option.some TaskStatus.error, Option.some TaskStatus.completed] <;>
      rcases hr : kw.task_report with _ | _ | r <;>
        simp [updApply, Task.append_log, hm, hr] <;>
          by_cases hre : r = "" <;> simp [hre]
  · intro p hp
    rw [hAt]
    by_cases hm : kw.task_status ∈ [Option.some TaskStatus.done,
        Option.some TaskStatus.error, Option.some TaskStatus.completed] <;>
      rcases hr : kw.task_report with _ | _ | r <;>
        simp [updApply, Task.append_log, hm, hr, hp] <;>
          by_cases hre : r = "" <;> simp [hre]
  · intro rep hrep
    rw [hAt]
    by_cases hm : kw.task_status ∈ [Option.some TaskStatus.done,
        Option.some TaskStatus.error, Option.some TaskStatus.completed] <;>
      rcases hr : rep with _ | r <;>
        simp [updApply, Task.append_log, hm, hrep, hr] <;>
          by_cases hre : r = "" <;> simp [hre]
  · intro hm hp
    rw [hAt]
    rcases hr : kw.task_report with _ | _ | r <;>
      · simp [updApply, Task.append_log, hm, hp, hr]
        try (by_cases hre : r = "" <;> simp [hre])
  · intro rep hrep hne
    rw [hAt]
    by_cases hm : kw.task_status ∈ [Option.some TaskStatus.done,
        Option.some TaskStatus.error, Option.some TaskStatus.completed] <;>
      simp [updApply, Task.append_log, hm, hrep, hne]

/-- Witness for C7 at concrete inputs: a terminal status with no explicit
progress forces 100; a non-empty report is applied and logged exactly once;
one combined op fires and nothing is raised. -/
theorem C7_update_and_emit_fields_witness :
    (update_and_emit env0 task0
        ⟨Option.some TaskStatus.done, Option.none,
          Option.some (Option.some "all good")⟩).taskAtEmit.task_status
      = TaskStatus.done
    ∧ (update_and_emit env0 task0
        ⟨Option.some TaskStatus.done, Option.none,
          Option.some (Option.some "all good")⟩).taskAtEmit.task_progress
      = 100
    ∧ (update_and_emit env0 task0
        ⟨Option.some TaskStatus.done, Option.none,
          Option.some (Option.some "all good")⟩).taskAtEmit.task_logs
      = [⟨"all good", TaskStatus.done⟩]
    ∧ (update_and_emit env0 task0
        ⟨Option.some TaskStatus.done, Option.none,
          Option.some (Option.some "all good")⟩).combinedOps = 1
    ∧ (update_and_emit env0 task0
        ⟨Option.some TaskStatus.done, Option.none,
          Option.some (Option.some "all good")⟩).raised = Option.none := by
  have h := C7_update_and_emit_fields env0 task0
    ⟨Option.some TaskStatus.done, Option.none,
      Option.some (Option.some "all good")⟩
  refine ⟨h.1, ?_, ?_, h.2.2.2.2.2.1, h.2.2.2.2.2.2⟩
  · exact h.2.2.2.1 (by decide) rfl
  · simpa [task0] using h.2.2.2.2.1 "all good" rfl (by decide)

/-! ## Invocation wrappers (`_utils/basic.py`) -/

/-- What `raise last_exception` raises after the loop: the recorded
exception, or — when `attempts = 0` and no attempt ever ran — `raise None`,
which is itself a `TypeError`. -/
inductive RetryRaise
  | exc (e : PyErr)
  | raiseNone
deriving DecidableEq, Repr

structure RetryOut (α : Type) where
  result : Except RetryRaise α
  invocations : Nat
  failureLogs : Nat
  finalFailureLogged : Bool
  sleeps : Nat
deriving Repr

/-- Loop body of the `wrapped_func` in `retry_execution`: `attempt` is the
index of the next invocation, `remaining` the number of loop iterations
left, `last` the recorded `last_exception`; `inv`/`logs`/`slps` accumulate
invocations, per-failure log lines (`Attempt i+1 failed for ...`) and
`asyncio.sleep(delay)` calls (executed after a failure when `delay > 0`).
After the loop one `All .. attempts failed` line is logged and
`last_exception` is re-raised.  The wrapped operation is modelled as a
function from the invocation index to its outcome. -/
def retryGo {α : Type} (f : Nat → Except PyErr α) (delay : Nat) :
    Nat → Nat → Option PyErr → Nat → Nat → Nat → RetryOut α
  | _, 0, last, inv, logs, slps =>
      { result := Except.error (match last with
          | Option.some e => RetryRaise.exc e
          | Option.none => RetryRaise.raiseNone)
        invocations := inv, failureLogs := logs,
        finalFailureLogged := true, sleeps := slps }
  | attempt, r + 1, _, inv, logs, slps =>
      match f attempt with
      | Except.ok v =>
          { result := Except.ok v, invocations := inv + 1,
            failureLogs := logs, finalFailureLogged := false,
            sleeps := slps }
      | Except.error e =>
          retryGo f delay (attempt + 1) r (Option.some e) (inv + 1)
            (logs + 1) (slps + if 0 < delay then 1 else 0)

/-- Model of `retry_execution(attempts, delay)` applied to an operation `f`. -/
def retry_execution {α : Type} (attempts delay : Nat)
    (f : Nat → Except PyErr α) : RetryOut α :=
  retryGo f delay 0 attempts Option.none 0 0 0

theorem retryGo_first_success {α : Type} (f : Nat → Except PyErr α)
    (delay : Nat) (v : α) :
    ∀ (k a r : Nat) (last : Option PyErr) (inv logs slps : Nat),
      k < r →
      (∀ j, j < k → (f (a + j)).isOk = false) →
      f (a + k) = Except.ok v →
      retryGo f delay a r last inv logs slps =
        { result := Except.ok v, invocations := inv + k + 1,
          failureLogs := logs + k, finalFailureLogged := false,
          sleeps := slps + k * (if 0 < delay then 1 else 0) } := by
  intro k
  induction k with
  | zero =>
    intro a r last inv logs slps hk _ hok
    cases r with
    | zero => omega
    | succ r2 =>
      have hfa : f a = Except.ok v := by simpa using hok
      simp [retryGo, hfa]
  | succ k2 ih =>
    intro a r last inv logs slps hk hfail hok
    cases r with
    | zero => omega
    | succ r2 =>
      have hf0 : (f a).isOk = false := by
        simpa using hfail 0 (Nat.succ_pos k2)
      obtain ⟨e, he⟩ : ∃ e, f a = Except.error e := by
        cases hfa : f a with
        | ok w => rw [hfa] at hf0; cases hf0
        | error e => exact ⟨e, rfl⟩
      have hstep : retryGo f delay a (r2 + 1) last inv logs slps
          = retryGo f delay (a + 1) r2 (Option.some e) (inv + 1)
              (logs + 1) (slps + if 0 < delay then 1 else 0) := by
        simp [retryGo, he]
      rw [hstep]
      have hfail2 : ∀ j, j < k2 → (f (a + 1 + j)).isOk = false := by
        intro j hj
        have h2 := hfail (j + 1) (by omega)
        have heq : a + (j + 1) = a + 1 + j := by omega
        rw [heq] at h2
        exact h2
      have hok2 : f (a + 1 + k2) = Except.ok v := by
        have heq : a + (k2 + 1) = a + 1 + k2 := by omega
        rw [heq] at hok
        exact hok
      rw [ih (a + 1) r2 (Option.some e) (inv + 1) (logs + 1)
        (slps + if 0 < delay then 1 else 0) (by omega) hfail2 hok2]
      by_cases hd : 0 < delay <;>
        simp [hd, RetryOut.mk.injEq] <;> constructor <;> omega

theorem retryGo_all_fail {α : Type} (f : Nat → Except PyErr α)
    (delay : Nat) :
    ∀ (r a : Nat) (last : Option PyErr) (inv logs slps : Nat),
      1 ≤ r →
      (∀ j, j < r → (f (a + j)).isOk = false) →
      ∃ e, f (a + (r - 1)) = Except.error e ∧
        retryGo f delay a r last inv logs slps =
          { result := Except.error (RetryRaise.exc e),
            invocations := inv + r, failureLogs := logs + r,
            finalFailureLogged := true,
            sleeps := slps + r * (if 0 < delay then 1 else 0) } := by
  intro r
  induction r with
  | zero => intro a last inv logs slps h1; omega
  | succ r2 ih =>
    intro a last inv logs slps _ hfail
    have hf0 : (f a).isOk = false := by
      simpa using hfail 0 (Nat.succ_pos r2)
    obtain ⟨e0, he0⟩ : ∃ e, f a = Except.error e := by
      cases hfa : f a with
      | ok w => rw [hfa] at hf0; cases hf0
      | error e => exact ⟨e, rfl⟩
    cases r2 with
    | zero =>
      refine ⟨e0, by simpa using he0, ?_⟩
      by_cases hd : 0 < delay <;>
        simp [retryGo, he0, hd, RetryOut.mk.injEq]
    | succ r3 =>
      have hfail2 : ∀ j, j < r3 + 1 → (f (a + 1 + j)).isOk = false := by
        intro j hj
        have h2 := hfail (j + 1) (by omega)
        have heq : a + (j + 1) = a + 1 + j := by omega
        rw [heq] at h2
        exact h2
      obtain ⟨e, he, hrec⟩ := ih (a + 1) (Option.some e0) (inv + 1)
        (logs + 1) (slps + if 0 < delay then 1 else 0)
        (Nat.succ_pos r3) hfail2
      have heq : a + 1 + (r3 + 1 - 1) = a + (r3 + 1 + 1 - 1) := by omega
      refine ⟨e, by rw [← heq]; exact he, ?_⟩
      have hstep : retryGo f delay a (r3 + 1 + 1) last inv logs slps
          = retryGo f delay (a + 1) (r3 + 1) (Option.some e0) (inv + 1)
              (logs + 1) (slps + if 0 < delay then 1 else 0) := by
        simp [retryGo, he0]
      rw [hstep, hrec]
      by_cases hd : 0 < delay <;>
        simp [hd, RetryOut.mk.injEq] <;> constructor <;> omega

/-- Claim C8. The retry wrap with `(attempts, delay)` re-invokes the wrapped
operation up to `attempts` times, sleeping between attempts exactly when
`delay > 0`, logging one line per failed attempt, returning the value of the
operation at the first success, and re-raising the last failure only after all
`attempts` attempts are exhausted (with the final `All .. attempts failed`
line logged). -/
theorem C8_retry_execution {α : Type} (attempts delay : Nat)
    (f : Nat → Except PyErr α) (v : α) (k : Nat) :
    (k < attempts →
      (∀ j, j < k → (f j).isOk = false) →
      f k = Except.ok v →
      retry_execution attempts delay f =
        { result := Except.ok v, invocations := k + 1, failureLogs := k,
          finalFailureLogged := false,
          sleeps := k * (if 0 < delay then 1 else 0) })
    ∧ (1 ≤ attempts →
      (∀ j, j < attempts → (f j).isOk = false) →
      ∃ e, f (attempts - 1) = Except.error e ∧
        retry_execution attempts delay f =
          { result := Except.error (RetryRaise.exc e),
            invocations := attempts, failureLogs := attempts,
            finalFailureLogged := true,
            sleeps := attempts * (if 0 < delay then 1 else 0) }) := by
  constructor
  · intro hk hfail hok
    have h := retryGo_first_success f delay v k 0 attempts Option.none
      0 0 0 hk (by simpa using hfail) (by simpa using hok)
    simpa [retry_execution] using h
  · intro h1 hfail
    obtain ⟨e, he, hr⟩ := retryGo_all_fail f delay attempts 0 Option.none
      0 0 0 h1 (by simpa using hfail)
    refine ⟨e, by simpa using he, ?_⟩
    simpa [retry_execution] using hr

/-- The C8 spec scenario: fails on invocations 0 and 1, succeeds on 2. -/
def failTwice : Nat → Except PyErr Nat := fun n =>
  if n < 2 then Except.error (PyErr.exc "boom") else Except.ok 7

/-- Witness for C8: with `attempts = 3, delay = 0` on an operation failing
on attempts 1 and 2 and succeeding on attempt 3, the wrap returns the
success value, logs exactly 2 failure lines, and performs no sleeps. -/
theorem C8_retry_execution_witness :
    retry_execution 3 0 failTwice =
      { result := Except.ok 7, invocations := 3, failureLogs := 2,
        finalFailureLogged := false, sleeps := 0 } := by
  have h := (C8_retry_execution 3 0 failTwice 7 2).1 (by decide)
    (by decide) (by decide)
  simpa using h

/-- Result of a `try_except_wrapper`-wrapped call: the value returned to the
caller (`Option.none` models Python `None`), the exception escaping to the
caller, and the emitted log lines. -/
structure WrapOut (β : Type) where
  value : Option β
  raised : Option PyErr
  logs : List String
deriving Repr

/-- The log line of the fail-soft wrap: `An error occurred in
{func_name}: ...` (the traceback text is elided; `func_name` is the wrapped
name of the operation, possibly `Class.name`-qualified). -/
def failSoftLog (name : String) (e : PyErr) : String :=
  "An error occurred in " ++ name ++ ": " ++ e.text

/-- Model of `try_except_wrapper`: run the wrapped operation; on success return its
result unchanged; on any exception log one line naming the operation and
return `None`.  Nothing is re-raised. -/
def try_except_wrapper {α β : Type} (name : String)
    (f : α → Except PyErr β) (a : α) : WrapOut β :=
  match f a with
  | Except.ok b =>
      { value := Option.some b, raised := Option.none, logs := [] }
  | Except.error e =>
      { value := Option.none, raised := Option.none,
        logs := [failSoftLog name e] }

/-- Claim C9. For every wrapped operation and input: the fail-soft wrap never
propagates an exception to the caller; when the operation raises it returns
the empty/null result and logs the failure under the name of the operation;
when the operation succeeds it returns its result unchanged with no
log. -/
theorem C9_fail_soft (name : String) {α β : Type}
    (f : α → Except PyErr β) (a : α) :
    (try_except_wrapper name f a).raised = Option.none
    ∧ (∀ b, f a = Except.ok b →
        try_except_wrapper name f a
          = ⟨Option.some b, Option.none, []⟩)
    ∧ (∀ e, f a = Except.error e →
        try_except_wrapper name f a
          = ⟨Option.none, Option.none, [failSoftLog name e]⟩) := by
  refine ⟨?_, ?_, ?_⟩
  · unfold try_except_wrapper
    cases f a <;> rfl
  · intro b hb
    unfold try_except_wrapper
    rw [hb]
  · intro e he
    unfold try_except_wrapper
    rw [he]

/-- An operation that always raises. -/
def alwaysRaises : Unit → Except PyErr Nat :=
  fun _ => Except.error (PyErr.exc "always fails")

/-- Witness for C9: wrapping an operation that always raises returns an
empty/absent result with one named log line and no escaping exception. -/
theorem C9_fail_soft_witness :
    try_except_wrapper "do_work" alwaysRaises ()
      = ⟨Option.none, Option.none,
          [failSoftLog "do_work" (PyErr.exc "always fails")]⟩ := by
  exact (C9_fail_soft "do_work" alwaysRaises ()).2.2
    (PyErr.exc "always fails") rfl

end FMB
